import Mathlib

/-!
Verification of the FloatChat response-routing and resilience engine.

This file shallowly embeds the routing logic of `src/utils/chatbot.py`
(the `ChatBot.respond` method and its helpers, together with the module
level LLM cooldown) and the session endpoints of
`backend/fastapi_server.py`.  External collaborators (the sqlite engine,
the LangChain LLM chain and SQL agent, the Chroma vector store, the
matplotlib rendering stack) are modelled as oracles carried in a
`Config` record: each oracle field records the outcome a single request
would observe from that collaborator (a returned value, or the text
`str(e)` of a raised exception).  The repository code itself -- every
branch, early return, exception handler and string template of
`respond` -- is translated faithfully, including branches that turn out
to be unreachable.
-/

namespace FloatChat

/-- The apostrophe character, used to build Python string reprs. -/
def sq : String := String.singleton (Char.ofNat 39)

/-- Left brace character of a Python dict repr. -/
def lbrace : String := "\x7b"

/-- Right brace character of a Python dict repr. -/
def rbrace : String := "\x7d"

/-- Does the first char list start with the second? -/
def charsStartWith : List Char → List Char → Bool
  | _, [] => true
  | [], _ :: _ => false
  | a :: as, b :: bs => a = b && charsStartWith as bs

/-- Does the second char list occur inside the first? -/
def charsContain : List Char → List Char → Bool
  | [], pat => pat.isEmpty
  | a :: rest, pat => charsStartWith (a :: rest) pat || charsContain rest pat

/-- Python `pat in s` substring test. -/
def strContains (s pat : String) : Bool := charsContain s.data pat.data

/-- Python `s.startswith(pat)`. -/
def strStarts (s pat : String) : Bool := charsStartWith s.data pat.data

/-- Python `s.lower()` (ASCII). -/
def pyLower (s : String) : String := ⟨s.data.map Char.toLower⟩

/-- Python `s.upper()` (ASCII). -/
def pyUpper (s : String) : String := ⟨s.data.map Char.toUpper⟩

/-- Python `s.split(';')[0]`: the text before the first `;` (the whole
string when there is none). -/
def beforeSemicolon (s : String) : String := ⟨s.data.takeWhile (fun c => c ≠ Char.ofNat 59)⟩

/-- Outcome of a call into an external library: a normal return, or a
raised exception carrying `str(e)`. -/
inductive PyResult (α : Type) where
  | ok (val : α)
  | exn (msg : String)
deriving DecidableEq, Repr

/-- Counters for the externally visible effects a request performs. -/
structure Trace where
  /-- invocations of the LLM provider (chain.invoke / agent_executor.invoke) -/
  llm_calls : Nat := 0
  /-- relational-store operations (sqlite / SQLAlchemy) -/
  store_accesses : Nat := 0
  /-- embedding calls (embedding_model.embed_query) -/
  embed_calls : Nat := 0
  /-- Chroma operations (get_collection / query) -/
  vector_accesses : Nat := 0
  /-- successful chroma_client.delete_collection calls -/
  collection_deletes : Nat := 0
  /-- successful vector-collection rebuilds (PrepareVectorDBFromTabularData.run_pipeline) -/
  collection_rebuilds : Nat := 0
deriving DecidableEq, Repr

/-- Pointwise sum of two effect traces (sequential composition). -/
def Trace.merge (t u : Trace) : Trace :=
  { llm_calls := t.llm_calls + u.llm_calls
    store_accesses := t.store_accesses + u.store_accesses
    embed_calls := t.embed_calls + u.embed_calls
    vector_accesses := t.vector_accesses + u.vector_accesses
    collection_deletes := t.collection_deletes + u.collection_deletes
    collection_rebuilds := t.collection_rebuilds + u.collection_rebuilds }

@[simp] theorem Trace.merge_llm (t u : Trace) :
    (Trace.merge t u).llm_calls = t.llm_calls + u.llm_calls := rfl

@[simp] theorem Trace.merge_store (t u : Trace) :
    (Trace.merge t u).store_accesses = t.store_accesses + u.store_accesses := rfl

@[simp] theorem Trace.merge_embed (t u : Trace) :
    (Trace.merge t u).embed_calls = t.embed_calls + u.embed_calls := rfl

@[simp] theorem Trace.merge_vector (t u : Trace) :
    (Trace.merge t u).vector_accesses = t.vector_accesses + u.vector_accesses := rfl

@[simp] theorem Trace.merge_deletes (t u : Trace) :
    (Trace.merge t u).collection_deletes = t.collection_deletes + u.collection_deletes := rfl

@[simp] theorem Trace.merge_rebuilds (t u : Trace) :
    (Trace.merge t u).collection_rebuilds = t.collection_rebuilds + u.collection_rebuilds := rfl

/-! ## The LLM provider cooldown (`chatbot.py` lines 24-35)

`_LLM_COOLDOWN_UNTIL` is a module-level `datetime | None`.  Time is
modelled as minutes (`Nat`) since an arbitrary epoch; `datetime.utcnow()`
becomes the `now` parameter. -/

/-- `_llm_available` (chatbot.py lines 27-31): `True` when no cooldown is
stored, otherwise `datetime.utcnow() >= _LLM_COOLDOWN_UNTIL`. -/
def llm_available (now : Nat) (cooldown_until : Option Nat) : Bool :=
  match cooldown_until with
  | none => true
  | some t => decide (t ≤ now)

/-- `_activate_llm_cooldown` (chatbot.py lines 33-35): overwrite the
stored expiry with `datetime.utcnow() + timedelta(minutes=minutes)`,
whatever was stored before. -/
def activate_llm_cooldown (now minutes : Nat) (_prev : Option Nat) : Option Nat :=
  some (now + minutes)

/-! ## Session storage (`fastapi_server.py` lines 66, 162-226)

`chat_sessions: Dict[str, List[List[str]]]` maps a session id to an
ordered transcript of `[user_message, bot_response]` pairs. -/

/-- The in-memory `chat_sessions` dictionary. -/
def SessionMap : Type := String → Option (List (String × String))

/-- The empty `chat_sessions` dictionary. -/
def SessionMap.empty : SessionMap := fun _ => none

/-- `chat_sessions[sid] = v`. -/
def SessionMap.insert (m : SessionMap) (sid : String) (v : List (String × String)) :
    SessionMap :=
  fun k => if k = sid then some v else m k

/-- `del chat_sessions[sid]`. -/
def SessionMap.erase (m : SessionMap) (sid : String) : SessionMap :=
  fun k => if k = sid then none else m k

/-- Request body of the chat endpoints (`ChatMessage` pydantic model). -/
structure ChatMessage where
  message : String
  chat_type : String
  app_functionality : String := "Chat"
deriving DecidableEq, Repr

/-- Response body of the chat endpoints (`ChatResponse` pydantic model).
`graph_data` is summarised as a flag recording whether the structural
`(type: image, format: image/png)` tag was attached. -/
structure ChatResponse where
  response : Option String := none
  graph : Option String := none
  graph_data_tag : Bool := false
  success : Bool := true
  error : Option String := none
deriving DecidableEq, Repr

/-- `str(e)` of the `TypeError` raised at `fastapi_server.py` line 175:
`ChatBot.respond(...)` is invoked on the class, with every argument
passed by keyword, so the required positional parameter of the unbound
method is missing and Python raises before the body runs. -/
def missing_self_error : String :=
  "ChatBot.respond() missing 1 required positional argument: " ++ sq ++ "self" ++ sq

/-- `POST /api/chat/session/{session_id}` (`fastapi_server.py` lines
162-205).  The handler ensures the session key exists, then calls
`ChatBot.respond(chatbot=..., message=..., chat_type=..., app_functionality=...)`
on the class itself; that call raises `TypeError` (no instance is bound
to `self`), the `except` at line 200 converts it into an error
`ChatResponse`, and the transcript update at line 184 is never reached. -/
def chat_with_session (sessions : SessionMap) (session_id : String) (_req : ChatMessage) :
    ChatResponse × SessionMap :=
  let sessions1 : SessionMap :=
    if (sessions session_id).isSome then sessions
    else sessions.insert session_id []
  let e := missing_self_error
  ({ response := some ("⚠️ Error: " ++ e)
     success := false
     error := some e }, sessions1)

/-- `GET /api/chat/session/{session_id}/history` (`fastapi_server.py`
lines 207-215): the stored transcript, or `[]` for an unknown id. -/
def get_chat_history (sessions : SessionMap) (session_id : String) :
    List (String × String) :=
  (sessions session_id).getD []

/-- `DELETE /api/chat/session/{session_id}` (`fastapi_server.py` lines
217-226): remove the entry if present; report which case occurred. -/
def clear_chat_session (sessions : SessionMap) (session_id : String) :
    String × SessionMap :=
  if (sessions session_id).isSome then
    (s!"Session {session_id} cleared successfully", sessions.erase session_id)
  else
    (s!"Session {session_id} not found", sessions)

/-! ## The relational store (sqlite), modelled as an oracle

The sqlite engine is an external collaborator; a `Table` records the
answers it gives to the fixed queries the code issues (`sqlite_master`,
`PRAGMA table_info`, `SELECT * ... LIMIT n`, `SELECT MIN(c), MAX(c)`,
`SELECT COUNT(*)`).  Cell values are carried as their Python reprs
(e.g. `"2.1"`), since the code only ever prints them. -/

structure Table where
  name : String
  columns : List String
  /-- rows of `SELECT * FROM t`, each cell as its Python repr -/
  rows : List (List String)
  /-- answer of `SELECT MIN(c), MAX(c) FROM t WHERE c IS NOT NULL`
  (the sqlite engine computes the aggregate); `none` models SQL NULL -/
  minMaxOf : String → Option String × Option String

/-- A sqlite database file.  When `fail` is `some e`, every cursor
operation on this connection raises an exception with `str(e) = e`. -/
structure SqliteDB where
  fail : Option String := none
  tables : List Table := []

/-- Python `str(tuple)` of a fetched row of cell reprs. -/
def renderTuple (row : List String) : String :=
  "(" ++ String.intercalate ", " row ++ (if row.length = 1 then ",)" else ")")

/-- Python `str(list_of_tuples)` of a `fetchall()` result. -/
def renderRowList (rows : List (List String)) : String :=
  "[" ++ String.intercalate ", " (rows.map renderTuple) ++ "]"

/-- Python `str(dict(zip(columns, row)))` of a fetched row. -/
def renderDictRow (cols row : List String) : String :=
  lbrace ++
    String.intercalate ", "
      ((cols.zip row).map (fun p => sq ++ p.1 ++ sq ++ ": " ++ p.2)) ++
  rbrace

/-- The smallest table name in a list (`SELECT name FROM sqlite_master
ORDER BY name LIMIT 1`). -/
def firstByName (ts : List Table) : Option Table :=
  ts.foldl
    (fun best t =>
      match best with
      | none => some t
      | some b => if t.name < b.name then some t else some b)
    none

/-! ## Embedding backend state -/

/-- Which embedding backend `APPCFG.embedding_model` currently holds. -/
inductive EmbBackend where
  | remote
  | localEmb
deriving DecidableEq, Repr

/-- The mutable embedding fields of `APPCFG` (`embedding_model`,
`embedding_dimension`), reassigned by the RAG quota handler
(chatbot.py lines 636-651). -/
structure EmbState where
  /-- `APPCFG.embedding_model is not None` -/
  model_present : Bool := true
  backend : EmbBackend := .remote
  embedding_dimension : Option Nat := none
deriving DecidableEq, Repr

/-- Process-wide mutable state read and written by `respond`:
the module-level `_LLM_COOLDOWN_UNTIL` and the embedding fields. -/
structure GlobalState where
  cooldown : Option Nat := none
  emb : EmbState := {}
deriving DecidableEq, Repr

/-! ## Configuration and collaborator oracles

One `Config` fixes everything a single request observes from the
environment: `APPCFG` attributes, file existence, store contents, and
the outcome of each external call the request may make. -/

structure Config where
  /-- `datetime.utcnow()` during this request, in minutes -/
  now : Nat
  /-- `getattr(APPCFG, "langchain_llm", None)` is truthy -/
  langchain_llm : Bool := false
  use_google_genai : Bool := false
  /-- `os.path.exists(APPCFG.sqldb_directory)` -/
  sqldb_exists : Bool := false
  /-- the store at `APPCFG.sqldb_directory` (a fresh file is empty) -/
  sqldb : SqliteDB := {}
  uploaded_db_exists : Bool := false
  uploaded_db : SqliteDB := {}
  uploaded_files_sqldb_directory : String := "data/uploaded_sqldb.db"
  stored_csv_db_exists : Bool := false
  stored_csv_db : SqliteDB := {}
  stored_csv_xlsx_sqldb_directory : String := "data/csv_xlsx_sqldb.db"
  /-- outcome of `chain.invoke` in the stored-SQL LLM path (line 278) -/
  chain_invoke : PyResult String := .exn "unavailable"
  /-- outcome of building engine/db/agent (lines 381-384) -/
  agent_build : PyResult Unit := .ok ()
  /-- outcome of `agent_executor.invoke` (line 386), already formatted
  to the final output string of lines 387-393 -/
  agent_invoke : PyResult String := .exn "unavailable"
  /-- `str(result)` of the raw agent result dict (line 402) -/
  agent_raw : String := ""
  /-- rows returned by `execute_query` for a user-supplied SQL text
  against the main store (line 414); errors yield an empty frame -/
  adhoc_query_rows : String → List (List String) := fun _ => []
  /-- outcome of `SQLGraphAgent.generate_graph` (graph_generator.py):
  that function catches its own exceptions and returns a dict, with a
  base64 `data` entry exactly when rendering succeeded -/
  graph_png : Option String := none
  /-- outcome of `chroma_client.get_collection` (line 553) -/
  get_collection_res : PyResult Unit := .ok ()
  /-- outcome of `embedding_model.embed_query` (line 558): the vector
  dimension, or a raised exception -/
  embed_query_res : PyResult Nat := .exn "unavailable"
  /-- `collection.metadata.get("embedding_dimension")` (line 562) -/
  collection_dim : Option Nat := none
  /-- outcome of `collection.query` (line 606): `documents[0]` -/
  vec_query_res : PyResult (List String) := .exn "unavailable"
  /-- outcome of constructing the local `HuggingFaceEmbeddings` and
  `SentenceTransformerEmbeddingFunction` (lines 636-650) -/
  local_setup_res : PyResult Unit := .ok ()
  /-- outcome of `chroma_client.delete_collection` (line 655) -/
  delete_collection_res : PyResult Unit := .ok ()
  /-- outcome of `PrepareVectorDBFromTabularData(...).run_pipeline()` -/
  rebuild_res : PyResult Unit := .ok ()
  /-- outcome of the retried local embed + query (lines 664-669):
  `documents[0]` of the second search -/
  local_vec_query_res : PyResult (List String) := .ok []

/-! ## The response dictionary

Every return path of `respond` builds an explicit dict literal; a field
is `none` when the corresponding key is absent from that literal.  (No
reachable return carries `"error": None`, so key-absent and value-None
never need to be distinguished.)  `graph_data_tag` records whether the
structural `(type: image, format: image/png)` entry was attached. -/

structure RespData where
  response : Option String := none
  success : Option Bool := none
  error : Option String := none
  text : Option String := none
  graph : Option String := none
  graph_data_tag : Bool := false
  raw_data : Option String := none
  needs_visualization : Option Bool := none
deriving DecidableEq, Repr

/-- Quota / rate-limit signature used throughout `respond`:
`"429" in str(e) or "quota" in str(e).lower()`. -/
def quota_signature (e : String) : Bool :=
  strContains e "429" || strContains (pyLower e) "quota"

/-! ## SQLGraphAgent keyword detection (graph_generator.py lines 9-13) -/

def graph_keywords : List String :=
  ["plot", "graph", "chart", "visualize", "show chart", "bar chart",
   "line graph", "histogram"]

/-- `SQLGraphAgent.detect_graph_request`. -/
def detect_graph_request (query : String) : Bool :=
  graph_keywords.any (fun k => strContains (pyLower query) k)

/-! ## `ChatBot._get_sql_response` (chatbot.py lines 773-813)

The class defines this method twice with identical bodies (lines 49-89
and 773-813); the later definition is the one bound.  Trace counters
count one `store_accesses` per sqlite connection session. -/

/-- `str(e)` of the `TypeError` raised by `cursor.fetchone()[0]` when the
store has no tables (`fetchone()` returns `None`). -/
def noneType_subscript_error : String :=
  sq ++ "NoneType" ++ sq ++ " object is not subscriptable"

/-- `str(e)` of the `NameError` raised when a local variable named `v` is
read before assignment. -/
def name_error (v : String) : String :=
  "name " ++ sq ++ v ++ sq ++ " is not defined"

def get_sql_response (cfg : Config) (_message chat_type : String) : String × Trace :=
  if chat_type = "Q&A with stored SQL-DB" then
    if cfg.sqldb_exists then
      match cfg.sqldb.fail with
      | some e => (s!"Error retrieving data: {e}", { store_accesses := 1 })
      | none =>
        match cfg.sqldb.tables.head? with
        | none =>
          -- no tables: fetchone() is None, None[0] raises, caught at line 811
          ("Error retrieving data: " ++ noneType_subscript_error,
           { store_accesses := 1 })
        | some t =>
          if (t.rows.take 5).isEmpty then ("No data found.", { store_accesses := 1 })
          else
            ("Query results:\n" ++
               String.intercalate "\n" ((t.rows.take 5).map (renderDictRow t.columns)),
             { store_accesses := 1 })
    else ("No data found.", {})
  else ("No data found.", {})

/-! ## `ChatBot._prepare_response_with_visualization` (lines 815-866) -/

def prepare_response_with_visualization (cfg : Config) (message response : String) :
    RespData × Trace :=
  let response_data : RespData := { text := some response }
  if detect_graph_request message then
    -- try (line 830): every failure below is caught at line 862 and the
    -- text-only dict returned
    if ¬ cfg.sqldb_exists then (response_data, {})
    else
      match cfg.sqldb.fail with
      | some _ => (response_data, { store_accesses := 1 })
      | none =>
        match cfg.sqldb.tables.head? with
        | none => (response_data, { store_accesses := 1 })
        | some t =>
          if (t.rows.take 1000).isEmpty then (response_data, { store_accesses := 2 })
          else
            -- generate_graph catches its own errors and returns a dict
            -- (graph_generator.py lines 150-167); the following
            -- `plt.savefig` on that dict raises AttributeError, caught at
            -- line 862, so the graph key is never attached on this path
            (response_data, { store_accesses := 2 })
  else (response_data, {})

/-! ## `respond`: branch translations

`respond` returns `("", updated_history, response_data)`; each branch
helper below produces that triple, plus its trace and any state it
writes. -/

/-- One full return value of `respond`. -/
abbrev RespondRet : Type := String × List (String × String) × RespData

/-- Lines 185-203: the early `chat_type == "Q&A with stored SQL-DB"`
branch, which answers from `_get_sql_response` and returns before any
LLM, cooldown or heuristic logic is consulted. -/
def branch_stored_sql (cfg : Config) (chatbot : List (String × String))
    (message chat_type : String) : RespondRet × Trace :=
  let rt := get_sql_response cfg message chat_type
  let response := rt.1
  -- lines 187-189 populate {response, success: True, text}, but line 194
  -- replaces the dict wholesale with the visualization variant
  -- (graph_agent is always initialised, and _prepare_... catches its own
  -- exceptions, so the except at line 195 never fires)
  let pv := prepare_response_with_visualization cfg message response
  let rd0 := pv.1
  -- line 200: the rebuilt dict has no (truthy) "response" key
  let rd := if rd0.response.getD "" = "" then { rd0 with response := some response }
            else rd0
  (("", chatbot ++ [(message, rd.response.getD "")], rd), rt.2.merge pv.2)

/-- Lines 205-263: the early RAG branch.  The primary "answer" is a
hard-coded stub string; the visualization attempt (lines 212-243) may
attach a graph, and every failure inside it is caught at line 242. -/
def branch_rag_stub (cfg : Config) (chatbot : List (String × String))
    (message : String) : RespondRet × Trace :=
  let response := "Response from RAG model"
  let rd : RespData :=
    { response := some response, success := some true, text := some response }
  if cfg.sqldb_exists then
    match cfg.sqldb.fail with
    | some _ => (("", chatbot ++ [(message, response)], rd), { store_accesses := 1 })
    | none =>
      match cfg.sqldb.tables.head? with
      | none => (("", chatbot ++ [(message, response)], rd), { store_accesses := 1 })
      | some t =>
        if (t.rows.take 1000).isEmpty then
          (("", chatbot ++ [(message, response)], rd), { store_accesses := 2 })
        else
          match cfg.graph_png with
          | some b64 =>
            let newResp :=
              response ++ "\n\nHere" ++ sq ++ "s a visualization of the data:"
            let rd2 :=
              { rd with
                  response := some newResp
                  graph := some ("data:image/png;base64," ++ b64)
                  graph_data_tag := true }
            (("", chatbot ++ [(message, newResp)], rd2), { store_accesses := 2 })
          | none =>
            -- generate_graph returned its error dict; graph_data["data"]
            -- raises KeyError, caught at line 242
            (("", chatbot ++ [(message, response)], rd), { store_accesses := 2 })
  else (("", chatbot ++ [(message, response)], rd), {})

/-- The min/max template of the SQL heuristic (lines 320 and 519). -/
def temp_template (tmin tmax : String) : String :=
  s!"The minimum temperature recorded is {tmin} degrees and the maximum temperature recorded is {tmax} degrees."

/-- Temperature-like column detection (lines 312/513). -/
def temp_candidates (cols : List String) : List String :=
  cols.filter (fun c =>
    (["temperature", "temp", "sst"] : List String).any
      (fun k => strContains (pyLower c) k))

/-- Question-keyword test of the min/max heuristic (lines 316/514). -/
def asks_temp_range (msg : String) : Bool :=
  (["range", "min", "max", "temperature", "temp"] : List String).any
    (fun k => strContains msg k)

/-- Lines 267-367 ("Case 1"): the LLM-mediated stored-SQL path with its
SQL-derived heuristic fallback.  (Unreachable from `respond`: the branch
at line 185 intercepts this chat type first and always returns; the
translation keeps it because later claims refer to it.)  Returns `none`
when the Python block falls through without returning (LLM produced a
non-empty answer, or the store file is absent), together with the new
cooldown and the trace. -/
def case1_stored_sql (cfg : Config) (st : GlobalState)
    (chatbot : List (String × String)) (message : String) :
    Option RespondRet × Option Nat × Trace :=
  if cfg.sqldb_exists then
    -- lines 270-286: LLM chain when configured and not cooling down
    let llmRes : String × Option Nat × Trace :=
      if cfg.langchain_llm && llm_available cfg.now st.cooldown then
        match cfg.chain_invoke with
        | .ok r => (r, st.cooldown, { llm_calls := 1 })
        | .exn e =>
          ("", (if quota_signature e then activate_llm_cooldown cfg.now 30 st.cooldown
                else st.cooldown),
           { llm_calls := 1 })
      else ("", st.cooldown, {})
    let response := llmRes.1
    let cd := llmRes.2.1
    let t0 := llmRes.2.2
    if response = "" then
      -- lines 288-367: heuristic block
      match cfg.sqldb.fail with
      | some e =>
        (some ("", chatbot ++ [(message, s!"Error accessing database: {e}")],
               { response := some s!"Error accessing database: {e}",
                 success := some false, error := some e }),
         cd, t0.merge { store_accesses := 1 })
      | none =>
        match cfg.sqldb.tables with
        | [] =>
          (some ("", chatbot ++ [(message, "No tables found in the database.")],
                 { response := some "No tables found in the database.",
                   success := some true }),
           cd, t0.merge { store_accesses := 1 })
        | t0tbl :: _ =>
          -- line 306: prefer the table named ocean_1
          let tbl :=
            match cfg.sqldb.tables.find? (fun t => t.name = "ocean_1") with
            | some t => t
            | none => t0tbl
          let msg := pyLower message
          let response1 :=
            match temp_candidates tbl.columns with
            | [] => ""
            | tcol :: _ =>
              if asks_temp_range msg then
                match tbl.minMaxOf tcol with
                | (some tmin, some tmax) => temp_template tmin tmax
                | _ => ""
              else ""
          if response1 = "" then
            -- lines 322-350: generic summary of the alphabetically first table
            match firstByName cfg.sqldb.tables with
            | some tn =>
              let summary :=
                "Summary for table " ++ sq ++ tn.name ++ sq ++ ":\n" ++
                "Columns: " ++ String.intercalate ", " tn.columns ++ "\n" ++
                s!"Total rows: {tn.rows.length}" ++ "\n" ++
                "Sample rows (5):\n" ++ renderRowList (tn.rows.take 5)
              (some ("", chatbot ++ [(message, summary)],
                     { response := some summary, success := some true }),
               cd, t0.merge { store_accesses := 1 })
            | none =>
              (some ("", chatbot ++
                       [(message, "The database is empty (no tables found).")],
                     { response := some "The database is empty (no tables found).",
                       success := some true }),
               cd, t0.merge { store_accesses := 1 })
          else
            -- line 363: the min/max template return
            (some ("", chatbot ++ [(message, response1)],
                   { text := some response1, response := some response1,
                     success := some true }),
             cd, t0.merge { store_accesses := 1 })
    else
      -- the LLM answered: the Python block reaches no return statement and
      -- falls through to the unsupported-chat-type check at line 726
      (none, cd, t0)
  else (none, st.cooldown, {})

/-- Line 452's user message. -/
def rate_limit_msg : String :=
  "We" ++ sq ++ "ve hit the API rate limit. Please try again later or check your API quota."

/-- Lines 470-539: the no-LLM fallback of the tabular branch.  When the
message matches a graph keyword, line 480 reassigns `db_path` to the
MAIN store before line 481 raises `NameError` (`tables` is read before
assignment); the error is caught at line 497 and the direct-SQL path at
line 502 then runs against the main store instead of the tabular one. -/
def case2_fallback (cfg : Config) (db : SqliteDB)
    (chatbot : List (String × String)) (message : String) : RespondRet × Trace :=
  let store := if detect_graph_request message then cfg.sqldb else db
  match store.fail with
  | some e =>
    (("", chatbot ++ [(message, s!"Error querying database without LLM: {e}")],
      { response := some s!"Error querying database without LLM: {e}",
        success := some false, error := some e }),
     { store_accesses := 1 })
  | none =>
    match store.tables.head? with
    | none =>
      (("", chatbot ++ [(message, "No tables found in the database.")],
        { response := some "No tables found in the database.",
          success := some true }),
       { store_accesses := 1 })
    | some t =>
      let msg := pyLower message
      let response1 :=
        match temp_candidates t.columns with
        | [] => ""
        | tcol :: _ =>
          if asks_temp_range msg then
            match t.minMaxOf tcol with
            | (some tmin, some tmax) => temp_template tmin tmax
            | _ => ""
          else ""
      let response2 :=
        if response1 = "" then
          -- lines 521-525: sample of the first 20 rows, first 5 shown
          "Here is a sample of the data from " ++ sq ++ t.name ++ sq ++ ":\n" ++
            renderRowList ((t.rows.take 20).take 5)
        else response1
      (("", chatbot ++ [(message, response2)],
        { response := some response2, success := some true }),
       { store_accesses := 1 })

/-- Lines 369-539 ("Case 2"): the tabular-SQL branch, live for the
Uploaded and stored CSV/XLSX chat types. -/
def case2_tabular (cfg : Config) (st : GlobalState)
    (chatbot : List (String × String)) (message chat_type : String) :
    RespondRet × Option Nat × Trace :=
  let isUploaded := chat_type = "Q&A with Uploaded CSV/XLSX SQL-DB"
  let db_path := if isUploaded then cfg.uploaded_files_sqldb_directory
                 else cfg.stored_csv_xlsx_sqldb_directory
  let db_exists := if isUploaded then cfg.uploaded_db_exists
                   else cfg.stored_csv_db_exists
  let db := if isUploaded then cfg.uploaded_db else cfg.stored_csv_db
  if ¬ db_exists then
    (("", chatbot ++ [(message, s!"SQL DB not found at {db_path}")],
      { response := some s!"SQL DB not found at {db_path}",
        success := some false, error := some "SQL database not found" }),
     st.cooldown, {})
  else if cfg.langchain_llm && llm_available cfg.now st.cooldown then
    match cfg.agent_build with
    | .ok _ =>
      match cfg.agent_invoke with
      | .ok out =>
        -- lines 386-442: agent success
        let is_visualization :=
          (["plot", "graph", "chart", "visualize"] : List String).any
            (fun term => strContains (pyLower message) term)
        let rd : RespData :=
          { response := some out, success := some true,
            raw_data := some cfg.agent_raw,
            needs_visualization := some is_visualization }
        if is_visualization then
          if strContains (pyUpper message) "SELECT" &&
             strContains (pyUpper message) "FROM" then
            let q := beforeSemicolon message
            -- line 414 runs the user text against the MAIN store
            if (cfg.adhoc_query_rows q).isEmpty then
              (("", chatbot ++ [(message, out)], rd), st.cooldown,
               { llm_calls := 1, store_accesses := 2 })
            else
              -- line 423 calls generate_graph with the unexpected keyword
              -- argument `title`, raising TypeError at the call; the except
              -- at line 437 appends the note to the response
              (("", chatbot ++ [(message, out)],
                { rd with
                    response := some (out ++ "\n\nNote: Could not generate the graph.") }),
               st.cooldown, { llm_calls := 1, store_accesses := 2 })
          else
            (("", chatbot ++ [(message, out)], rd), st.cooldown,
             { llm_calls := 1, store_accesses := 1 })
        else
          (("", chatbot ++ [(message, out)], rd), st.cooldown,
           { llm_calls := 1, store_accesses := 1 })
      | .exn e =>
        -- lines 444-460: invoke failed; note that this handler returns
        -- WITHOUT activating the cooldown, whatever the error text
        let user_msg :=
          if quota_signature e then rate_limit_msg
          else s!"Sorry, I encountered an error processing your request: {e}"
        (("", chatbot ++ [(message, user_msg)],
          { response := some user_msg, success := some false, error := some e }),
         st.cooldown, { llm_calls := 1, store_accesses := 1 })
    | .exn e =>
      -- lines 461-465: construction failed; quota errors activate a
      -- 30-minute cooldown, then the fallback runs
      let cd := if quota_signature e then activate_llm_cooldown cfg.now 30 st.cooldown
                else st.cooldown
      let fb := case2_fallback cfg db chatbot message
      (fb.1, cd, (Trace.merge { store_accesses := 1 } fb.2))
  else
    let fb := case2_fallback cfg db chatbot message
    (fb.1, st.cooldown, fb.2)

/-- Result-list formatting of the RAG branch (lines 613-616/671-675). -/
def format_results (docs : List String) : String :=
  "Here are the most relevant results for your query:\n\n" ++
    String.intercalate "\n\n"
      (docs.enum.map (fun p =>
        let i := p.1 + 1
        let d := p.2
        s!"Result {i}: {d}"))

/-- Control flow of a Python block: a returned value, or an exception
escaping to an enclosing handler. -/
inductive PyFlow (α : Type) where
  | ret (v : α)
  | exc (e : String)

/-- Lines 687-693's envelope text. -/
def failed_switch_msg (e : String) : String :=
  s!"Failed to switch to local embeddings: {e}"

/-- Lines 635-703 (without the cooldown activation at line 634): the
demote-to-local path run by the RAG quota handler.  It unconditionally
replaces `APPCFG.embedding_model` / `embedding_function` /
`embedding_dimension` with the local backend (lines 636-651), then
deletes and rebuilds the vector collection and retries the search once
(lines 653-686); construction failures fall to the handler at line 694
and rebuild/retry failures to the one at line 687. -/
def rag_local_switch (cfg : Config) (emb : EmbState)
    (chatbot : List (String × String)) (message : String) :
    RespondRet × EmbState × Trace :=
  match cfg.local_setup_res with
  | .exn e =>
    let r := "RAG is temporarily unavailable due to embedding issues. " ++
             s!"Please try again later. Details: {e}"
    (("", chatbot ++ [(message, r)],
      { response := some r, success := some false, error := some e }), emb, {})
  | .ok _ =>
    let emb2 : EmbState :=
      { model_present := true, backend := .localEmb, embedding_dimension := some 384 }
    match cfg.delete_collection_res with
    | .exn e =>
      (("", chatbot ++ [(message, failed_switch_msg e)],
        { response := some (failed_switch_msg e), success := some false,
          error := some e }), emb2, {})
    | .ok _ =>
      match cfg.rebuild_res with
      | .exn e =>
        (("", chatbot ++ [(message, failed_switch_msg e)],
          { response := some (failed_switch_msg e), success := some false,
            error := some e }), emb2, { collection_deletes := 1 })
      | .ok _ =>
        -- lines 660-669: re-fetch the collection, embed locally, retry
        match cfg.local_vec_query_res with
        | .exn e =>
          (("", chatbot ++ [(message, failed_switch_msg e)],
            { response := some (failed_switch_msg e), success := some false,
              error := some e }), emb2,
           { embed_calls := 1, vector_accesses := 3,
             collection_deletes := 1, collection_rebuilds := 1 })
        | .ok docs =>
          if docs.isEmpty then
            let r := "No relevant results found after switching to local embeddings."
            (("", chatbot ++ [(message, r)],
              { response := some r, success := some false,
                error := some "No relevant results found" }), emb2,
             { embed_calls := 1, vector_accesses := 3,
               collection_deletes := 1, collection_rebuilds := 1 })
          else
            let r := format_results docs
            (("", chatbot ++ [(message, r)],
              { response := some r, success := some true }), emb2,
             { embed_calls := 1, vector_accesses := 3,
               collection_deletes := 1, collection_rebuilds := 1 })

/-- Lines 630-703: the except-handler of the RAG branch.  A quota-signature
error activates a 60-minute cooldown and runs the local switch; any other
error falls to line 706, which reads the unassigned local `results` and
raises `NameError` to the outer handler. -/
def rag_quota_handler (cfg : Config) (st : GlobalState)
    (chatbot : List (String × String)) (message e : String) (t : Trace) :
    PyFlow RespondRet × GlobalState × Trace :=
  if quota_signature e then
    let cd := activate_llm_cooldown cfg.now 60 st.cooldown
    let ls := rag_local_switch cfg st.emb chatbot message
    (.ret ls.1, { cooldown := cd, emb := ls.2.1 }, t.merge ls.2.2)
  else
    (.exc (name_error "results"), st, t)

/-- Line 544's envelope text. -/
def no_embedding_msg : String :=
  "No embedding model available. Please check your configuration. " ++
  "Try using local embeddings by setting use_local_embeddings: true in configs/app_config.yml"

/-- Lines 542-723 ("Case 3"): the full RAG path with dimension
reconciliation and the quota fallback.  (Unreachable from `respond`: the
stub branch at line 205 intercepts this chat type first; kept because
later claims refer to it.) -/
def case3_rag (cfg : Config) (st : GlobalState)
    (chatbot : List (String × String)) (message : String) :
    PyFlow RespondRet × GlobalState × Trace :=
  if ¬ st.emb.model_present then
    (.ret ("", chatbot ++ [(message, no_embedding_msg)],
           { response := some no_embedding_msg, success := some false,
             error := some "No embedding model available" }), st, {})
  else
    match cfg.get_collection_res with
    | .exn e => rag_quota_handler cfg st chatbot message e { vector_accesses := 1 }
    | .ok _ =>
      match cfg.embed_query_res with
      | .exn e =>
        rag_quota_handler cfg st chatbot message e
          { vector_accesses := 1, embed_calls := 1 }
      | .ok actual_dim =>
        let expected :=
          cfg.collection_dim.getD (if cfg.use_google_genai then 768 else 384)
        if actual_dim ≠ expected then
          -- lines 568-603: delete (its own errors only printed, line 577)
          -- and rebuild with the currently active backend
          let delTrace : Trace :=
            match cfg.delete_collection_res with
            | .ok _ => { collection_deletes := 1 }
            | .exn _ => {}
          match cfg.rebuild_res with
          | .ok _ =>
            let r := "Successfully recreated collection with correct dimensions. " ++
                     "Please try your query again."
            (.ret ("", chatbot ++ [(message, r)],
                   { response := some r, success := some true }), st,
             (Trace.merge { vector_accesses := 2, embed_calls := 1,
                            collection_rebuilds := 1 } delTrace))
          | .exn e =>
            let r := s!"Failed to recreate collection with correct dimensions: {e}"
            (.ret ("", chatbot ++ [(message, r)],
                   { response := some r, success := some false, error := some e }),
             st, (Trace.merge { vector_accesses := 1, embed_calls := 1 } delTrace))
        else
          match cfg.vec_query_res with
          | .exn e =>
            rag_quota_handler cfg st chatbot message e
              { vector_accesses := 2, embed_calls := 1 }
          | .ok docs =>
            if docs.isEmpty then
              let r := "No relevant results found for your query."
              (.ret ("", chatbot ++ [(message, r)],
                     { text := some r, response := some r, success := some false,
                       error := some "No relevant results found" }), st,
               { vector_accesses := 2, embed_calls := 1 })
            else
              let r := format_results docs
              (.ret ("", chatbot ++ [(message, r)],
                     { text := some r, response := some r, success := some true }),
               st, { vector_accesses := 2, embed_calls := 1 })

/-- Lines 726-733 / 734-741: the trailing chat-type check of the Chat
block.  A chat type outside the three-element list yields the
unsupported envelope; the `else` arm is the not-implemented envelope. -/
def after_cases (chatbot : List (String × String)) (message chat_type : String) :
    RespondRet :=
  if chat_type ∉ (["Q&A with Uploaded CSV/XLSX SQL-DB", "Q&A with stored CSV/XLSX SQL-DB",
                   "RAG with stored CSV/XLSX ChromaDB"] : List String) then
    ("", chatbot ++ [(message, "This chat type is not supported.")],
     { text := some "This chat type is not supported.",
       response := some "This chat type is not supported.",
       success := some false, error := some "Unsupported chat type" })
  else
    ("", chatbot ++ [(message, "This functionality is not implemented yet.")],
     { response := some "This functionality is not implemented yet.",
       success := some false, error := some "Not implemented" })

/-- Lines 757-767: the catch-all handler wrapping the whole of `respond`. -/
def outer_handler (chatbot : List (String × String)) (message e : String) :
    RespondRet :=
  let resp := "I" ++ sq ++
    "m sorry, I encountered an error while processing your request. Please try again."
  ("", chatbot ++ [(message, resp)],
   { response := some resp, success := some false, error := some e })

/-- `ChatBot.respond` (chatbot.py lines 160-767), returning the
`("", history, response_data)` triple together with the new global
state and the effect trace of the request. -/
def respond (cfg : Config) (st : GlobalState) (chatbot : List (String × String))
    (message chat_type app_functionality : String) :
    RespondRet × GlobalState × Trace :=
  if chat_type = "Q&A with stored SQL-DB" then
    -- lines 185-203: early return, before any cooldown or LLM logic
    let b := branch_stored_sql cfg chatbot message chat_type
    (b.1, st, b.2)
  else if chat_type = "RAG with stored CSV/XLSX ChromaDB" then
    -- lines 205-263: early return with the stub RAG answer
    let b := branch_rag_stub cfg chatbot message
    (b.1, st, b.2)
  else if app_functionality = "Chat" then
    if chat_type = "Q&A with stored SQL-DB" then
      -- lines 267-367; dead (the equality already failed above)
      match case1_stored_sql cfg st chatbot message with
      | (some r, cd, t) => (r, { st with cooldown := cd }, t)
      | (none, cd, t) =>
        (after_cases chatbot message chat_type, { st with cooldown := cd }, t)
    else if chat_type = "Q&A with Uploaded CSV/XLSX SQL-DB" ∨
            chat_type = "Q&A with stored CSV/XLSX SQL-DB" then
      let c := case2_tabular cfg st chatbot message chat_type
      (c.1, { st with cooldown := c.2.1 }, c.2.2)
    else if chat_type = "RAG with stored CSV/XLSX ChromaDB" then
      -- lines 542-723; dead (intercepted at line 205)
      match case3_rag cfg st chatbot message with
      | (.ret r, st2, t) => (r, st2, t)
      | (.exc e, st2, t) => (outer_handler chatbot message e, st2, t)
    else
      (after_cases chatbot message chat_type, st, {})
  else
    -- line 744 reads the never-assigned local `response`: NameError,
    -- caught by the outer handler at line 757
    (outer_handler chatbot message (name_error "response"), st, {})

/-- `POST /api/chat` (`fastapi_server.py` lines 80-146).  The endpoint
calls `respond` with a fresh history and `"Chat"`, then marshals the
response dict into a `ChatResponse`, defaulting a missing `success` key
to `False`. -/
def chat_endpoint (cfg : Config) (st : GlobalState) (req : ChatMessage) :
    ChatResponse :=
  let r := respond cfg st [] req.message req.chat_type "Chat"
  let rd := r.1.2.2
  -- line 110: response_data.get("response", response_data.get("text", ""))
  let response_text :=
    match rd.response with
    | some v => v
    | none => rd.text.getD ""
  -- lines 113-124: a truthy string graph value is used as is when it is
  -- already a data URL, otherwise prefixed
  let graph_val :=
    match rd.graph with
    | some g =>
      if g = "" then none
      else if strStarts g "data:image/" then some g
      else some ("data:image/png;base64," ++ g)
    | none => none
  { response := some response_text
    graph := graph_val
    graph_data_tag := rd.graph_data_tag
    success := rd.success.getD false
    error := rd.error }

/-! ## Sample data used by witnesses and concrete counterexamples -/

/-- A small oceanographic table with a temperature-like column whose
values span 2.1 to 28.7. -/
def oceanTable : Table :=
  { name := "ocean"
    columns := ["id", "water_temp"]
    rows := [["1", "2.1"], ["2", "28.7"]]
    minMaxOf := fun c =>
      if c = "water_temp" then (some "2.1", some "28.7") else (none, none) }

/-- A request environment with the main store populated and no LLM. -/
def cfgOcean : Config :=
  { now := 100, langchain_llm := false, sqldb_exists := true,
    sqldb := { tables := [oceanTable] } }

/-- A request environment whose SQL agent raises a quota error when
invoked. -/
def cfgQuota : Config :=
  { now := 100, langchain_llm := true, uploaded_db_exists := true,
    uploaded_db := { tables := [oceanTable] },
    agent_build := .ok (),
    agent_invoke := .exn "429 Resource has been exhausted (e.g. check quota)." }

/-- A request environment whose main store raises on access. -/
def cfgBroken : Config :=
  { now := 100, langchain_llm := false, sqldb_exists := true,
    sqldb := { fail := some "disk I/O error", tables := [] } }

/-- A request environment in which the demote-to-local path fully
succeeds (local setup, delete, rebuild and retried query all work). -/
def cfgLocalOk : Config :=
  { now := 0, local_vec_query_res := .ok ["doc one"] }

/-! ## Claims -/

/-- C6: activating the cooldown with duration `m` and then immediately
(same `now`) with duration `m2` leaves the stored expiry at `now + m2`:
the second call overwrites the single stored timestamp, independently of
what was stored before, so the result is neither the maximum nor the sum
of the two windows (it equals activating with `m2` alone). -/
theorem C6_cooldown_overwrite (now m m2 : Nat) (st : Option Nat) :
    activate_llm_cooldown now m2 (activate_llm_cooldown now m st) = some (now + m2) ∧
    activate_llm_cooldown now m2 (activate_llm_cooldown now m st) =
      activate_llm_cooldown now m2 st :=
  ⟨rfl, rfl⟩

/-- C9: session isolation.  Handling a message under session id `A` never
changes the transcript stored for a different id `B`, and clearing `A`
leaves `B`'s entry untouched. -/
theorem C9_session_isolation (sessions : SessionMap) (A B : String)
    (req : ChatMessage) (h : A ≠ B) :
    (chat_with_session sessions A req).2 B = sessions B ∧
    (clear_chat_session sessions A).2 B = sessions B := by
  refine ⟨?_, ?_⟩
  · unfold chat_with_session SessionMap.insert
    split
    · rfl
    · simp only []
      rw [if_neg (fun hEq => h hEq.symm)]
  · unfold clear_chat_session SessionMap.erase
    split
    · simp only []
      rw [if_neg (fun hEq => h hEq.symm)]
    · rfl

/-- Witness for C9 at concrete session ids. -/
theorem C9_session_isolation_witness :
    ("a" : String) ≠ "b" ∧
    (chat_with_session SessionMap.empty "a"
        { message := "hi", chat_type := "Q&A with stored SQL-DB" }).2 "b" =
      SessionMap.empty "b" ∧
    (clear_chat_session SessionMap.empty "a").2 "b" = SessionMap.empty "b" := by
  have h : ("a" : String) ≠ "b" := by decide
  exact ⟨h, C9_session_isolation SessionMap.empty "a" "b"
    { message := "hi", chat_type := "Q&A with stored SQL-DB" } h⟩

/-- C5 (code bug): the session endpoint calls `ChatBot.respond` on the
class itself with every argument passed by keyword
(`fastapi_server.py` line 175), so the call raises `TypeError` before
the transcript update at line 184.  Sending two sequential messages to
session `s1` therefore leaves the stored transcript EMPTY (length 0,
not 2, and both requests come back as error envelopes carrying the
`TypeError` text); only the delete-then-read half of the claimed
scenario behaves as specified. -/
theorem C5_session_transcript_bug :
    (chat_with_session SessionMap.empty "s1"
        { message := "hello", chat_type := "Q&A with stored SQL-DB" }).1.success
        = false ∧
    (chat_with_session SessionMap.empty "s1"
        { message := "hello", chat_type := "Q&A with stored SQL-DB" }).1.error
        = some missing_self_error ∧
    get_chat_history
      (chat_with_session
        (chat_with_session SessionMap.empty "s1"
          { message := "hello", chat_type := "Q&A with stored SQL-DB" }).2
        "s1" { message := "world", chat_type := "Q&A with stored SQL-DB" }).2
      "s1" = [] ∧
    get_chat_history
      (clear_chat_session
        (chat_with_session
          (chat_with_session SessionMap.empty "s1"
            { message := "hello", chat_type := "Q&A with stored SQL-DB" }).2
          "s1" { message := "world", chat_type := "Q&A with stored SQL-DB" }).2
        "s1").2
      "s1" = [] := by
  refine ⟨rfl, rfl, ?_, ?_⟩ <;>
    simp [chat_with_session, clear_chat_session, get_chat_history,
      SessionMap.empty, SessionMap.insert, SessionMap.erase]

/-- C3: a request whose `chat_type` is none of the four recognized values
(processed under the `"Chat"` functionality the transport layer always
sends) is answered with the fixed unsupported envelope --
`success = False`, `error = "Unsupported chat type"` -- without touching
the relational store, the vector store or the LLM provider, and without
mutating the global state. -/
theorem C3_unsupported_chat_type (cfg : Config) (st : GlobalState)
    (chatbot : List (String × String)) (message chat_type : String)
    (h1 : chat_type ≠ "Q&A with stored SQL-DB")
    (h2 : chat_type ≠ "Q&A with Uploaded CSV/XLSX SQL-DB")
    (h3 : chat_type ≠ "Q&A with stored CSV/XLSX SQL-DB")
    (h4 : chat_type ≠ "RAG with stored CSV/XLSX ChromaDB") :
    (respond cfg st chatbot message chat_type "Chat").1.2.2.success = some false ∧
    (respond cfg st chatbot message chat_type "Chat").1.2.2.error =
      some "Unsupported chat type" ∧
    (respond cfg st chatbot message chat_type "Chat").2.2 = ({} : Trace) ∧
    (respond cfg st chatbot message chat_type "Chat").2.1 = st := by
  have hmem : chat_type ∉
      (["Q&A with Uploaded CSV/XLSX SQL-DB", "Q&A with stored CSV/XLSX SQL-DB",
        "RAG with stored CSV/XLSX ChromaDB"] : List String) := by
    simp [h2, h3, h4]
  unfold respond after_cases
  rw [if_neg h1, if_neg h4, if_pos rfl, if_neg h1,
    if_neg (not_or.mpr ⟨h2, h3⟩), if_neg h4, if_pos hmem]
  exact ⟨rfl, rfl, rfl, rfl⟩

/-- Witness for C3 at the concrete chat type `"Unknown"`. -/
theorem C3_unsupported_chat_type_witness :
    ("Unknown" : String) ≠ "Q&A with stored SQL-DB" ∧
    (respond cfgOcean {} [] "hi" "Unknown" "Chat").1.2.2.success = some false ∧
    (respond cfgOcean {} [] "hi" "Unknown" "Chat").1.2.2.error =
      some "Unsupported chat type" ∧
    (respond cfgOcean {} [] "hi" "Unknown" "Chat").2.2 = ({} : Trace) := by
  have h := C3_unsupported_chat_type cfgOcean {} [] "hi" "Unknown"
    (by decide) (by decide) (by decide) (by decide)
  exact ⟨by decide, h.1, h.2.1, h.2.2.1⟩

/-! ### C1: cooldown gating.  Helper lemmas showing that each branch of
`respond` performs no LLM completion/chain/agent call while the gate
`llm_available` is false (and that the branches without an LLM never
perform one at all). -/

theorem get_sql_response_no_llm (cfg : Config) (m ct : String) :
    (get_sql_response cfg m ct).2.llm_calls = 0 := by
  unfold get_sql_response
  repeat' split
  all_goals rfl

theorem prepare_viz_no_llm (cfg : Config) (m r : String) :
    (prepare_response_with_visualization cfg m r).2.llm_calls = 0 := by
  unfold prepare_response_with_visualization
  repeat' split
  all_goals rfl

theorem branch_stored_sql_no_llm (cfg : Config) (cb : List (String × String))
    (m ct : String) : (branch_stored_sql cfg cb m ct).2.llm_calls = 0 := by
  unfold branch_stored_sql
  simp [Trace.merge_llm, get_sql_response_no_llm, prepare_viz_no_llm]

theorem branch_rag_stub_no_llm (cfg : Config) (cb : List (String × String))
    (m : String) : (branch_rag_stub cfg cb m).2.llm_calls = 0 := by
  unfold branch_rag_stub
  dsimp only
  repeat' split
  all_goals rfl

theorem case2_fallback_no_llm (cfg : Config) (db : SqliteDB)
    (cb : List (String × String)) (m : String) :
    (case2_fallback cfg db cb m).2.llm_calls = 0 := by
  unfold case2_fallback
  dsimp only
  repeat' split
  all_goals rfl

theorem case1_gated_no_llm (cfg : Config) (st : GlobalState)
    (cb : List (String × String)) (m : String)
    (hav : llm_available cfg.now st.cooldown = false) :
    (case1_stored_sql cfg st cb m).2.2.llm_calls = 0 := by
  unfold case1_stored_sql
  rw [hav]
  simp only [Bool.and_false, Bool.false_eq_true, if_false]
  split
  · repeat' split
    all_goals rfl
  · rfl

theorem case2_gated_no_llm (cfg : Config) (st : GlobalState)
    (cb : List (String × String)) (m ct : String)
    (hav : llm_available cfg.now st.cooldown = false) :
    (case2_tabular cfg st cb m ct).2.2.llm_calls = 0 := by
  unfold case2_tabular
  rw [hav]
  simp only [Bool.and_false, Bool.false_eq_true, if_false]
  repeat' split
  all_goals first
    | rfl
    | exact case2_fallback_no_llm ..

theorem rag_local_switch_no_llm (cfg : Config) (emb : EmbState)
    (cb : List (String × String)) (m : String) :
    (rag_local_switch cfg emb cb m).2.2.llm_calls = 0 := by
  unfold rag_local_switch
  dsimp only
  repeat' split
  all_goals rfl

theorem rag_quota_handler_llm (cfg : Config) (st : GlobalState)
    (cb : List (String × String)) (m e : String) (t : Trace) :
    (rag_quota_handler cfg st cb m e t).2.2.llm_calls = t.llm_calls := by
  unfold rag_quota_handler
  split
  · simp [Trace.merge_llm, rag_local_switch_no_llm]
  · rfl

theorem case3_no_llm (cfg : Config) (st : GlobalState)
    (cb : List (String × String)) (m : String) :
    (case3_rag cfg st cb m).2.2.llm_calls = 0 := by
  unfold case3_rag
  dsimp only
  repeat' split
  all_goals first
    | rfl
    | rw [rag_quota_handler_llm]

/-- C1: while the LLM cooldown is active (the current time is strictly
before the stored expiry), no branch of `respond` performs an LLM
completion/chain/agent invocation -- the request is answered entirely by
the non-LLM paths. -/
theorem C1_cooldown_gates_llm (cfg : Config) (st : GlobalState)
    (chatbot : List (String × String)) (message chat_type aft : String)
    (u : Nat) (hcd : st.cooldown = some u) (hnow : cfg.now < u) :
    (respond cfg st chatbot message chat_type aft).2.2.llm_calls = 0 := by
  have hav : llm_available cfg.now st.cooldown = false := by
    rw [hcd]; unfold llm_available; simp; omega
  unfold respond
  dsimp only
  repeat' split
  all_goals first
    | rfl
    | exact branch_stored_sql_no_llm cfg chatbot message _
    | exact branch_rag_stub_no_llm cfg chatbot message
    | exact case2_gated_no_llm cfg st chatbot message _ hav

/-- Witness for C1: a concrete request issued at `now = 100` under a
cooldown expiring at 200 performs zero LLM calls. -/
theorem C1_cooldown_gates_llm_witness :
    ({ cooldown := some 200 } : GlobalState).cooldown = some 200 ∧
    cfgQuota.now < 200 ∧
    (respond cfgQuota { cooldown := some 200 } [] "show data"
        "Q&A with Uploaded CSV/XLSX SQL-DB" "Chat").2.2.llm_calls = 0 :=
  ⟨rfl, by decide,
   C1_cooldown_gates_llm cfgQuota { cooldown := some 200 } [] "show data"
     "Q&A with Uploaded CSV/XLSX SQL-DB" "Chat" 200 rfl (by decide)⟩

/-! ### C10: the stored-SQL envelope loses its `success` key -/

theorem prepare_viz_text (cfg : Config) (m r : String) :
    (prepare_response_with_visualization cfg m r).1 = { text := some r } := by
  unfold prepare_response_with_visualization
  dsimp only
  repeat' split
  all_goals rfl

theorem branch_stored_sql_envelope (cfg : Config) (cb : List (String × String))
    (m ct : String) :
    (branch_stored_sql cfg cb m ct).1.2.2 =
      { text := some (get_sql_response cfg m ct).1,
        response := some (get_sql_response cfg m ct).1 } := by
  unfold branch_stored_sql
  simp [prepare_viz_text]

/-- C10: a stored-SQL-DB request (the store present and healthy, so the
request succeeds) has its response dict rebuilt by
`_prepare_response_with_visualization` (which always runs: the graph
agent is initialised in `__init__`): the envelope `respond` returns is
exactly `text`/`response` with NO `success` key, and the `/api/chat`
endpoint therefore fills in its `False` default, reporting
`success = false` for the successfully answered request (with a null
error). -/
theorem C10_success_key_lost (cfg : Config) (st : GlobalState)
    (hist : List (String × String)) (msg : String)
    (hex : cfg.sqldb_exists = true) (hf : cfg.sqldb.fail = none) :
    (respond cfg st hist msg "Q&A with stored SQL-DB" "Chat").1.2.2 =
      { text := some (get_sql_response cfg msg "Q&A with stored SQL-DB").1,
        response := some (get_sql_response cfg msg "Q&A with stored SQL-DB").1 } ∧
    (respond cfg st hist msg "Q&A with stored SQL-DB" "Chat").1.2.2.success = none ∧
    (chat_endpoint cfg st
        { message := msg, chat_type := "Q&A with stored SQL-DB" }).success = false ∧
    (chat_endpoint cfg st
        { message := msg, chat_type := "Q&A with stored SQL-DB" }).error = none := by
  have hr : ∀ cb : List (String × String),
      (respond cfg st cb msg "Q&A with stored SQL-DB" "Chat").1.2.2 =
        { text := some (get_sql_response cfg msg "Q&A with stored SQL-DB").1,
          response := some (get_sql_response cfg msg "Q&A with stored SQL-DB").1 } := by
    intro cb
    unfold respond
    rw [if_pos rfl]
    exact branch_stored_sql_envelope ..
  refine ⟨hr hist, by rw [hr hist], ?_, ?_⟩
  · unfold chat_endpoint
    dsimp only
    rw [hr []]
    rfl
  · unfold chat_endpoint
    dsimp only
    rw [hr []]

/-- Witness for C10 on the populated sample store. -/
theorem C10_success_key_lost_witness :
    cfgOcean.sqldb_exists = true ∧ cfgOcean.sqldb.fail = none ∧
    (respond cfgOcean {} [] "hello" "Q&A with stored SQL-DB" "Chat").1.2.2.success
      = none ∧
    (chat_endpoint cfgOcean {}
        { message := "hello", chat_type := "Q&A with stored SQL-DB" }).success
      = false := by
  have h := C10_success_key_lost cfgOcean {} [] "hello" rfl rfl
  exact ⟨rfl, rfl, h.2.1, h.2.2.1⟩

/-! ### C2: exception propagation and the failure envelope -/

/-- C2 counterexample: the claim asserts every primary-path failure
yields an envelope with `success = false` and a non-empty `error`.  For
a stored-SQL request whose store access raises, the envelope `respond`
returns has NO `success` key (not `some false`) and NO `error` key at
all -- the error text survives only inside the `text` field. -/
theorem C2_counterexample :
    cfgBroken.sqldb.fail = some "disk I/O error" ∧
    (respond cfgBroken {} [] "hello" "Q&A with stored SQL-DB" "Chat").1.2.2.success
      ≠ some false ∧
    (respond cfgBroken {} [] "hello" "Q&A with stored SQL-DB" "Chat").1.2.2.error
      = none := by
  refine ⟨rfl, ?_, ?_⟩ <;> decide

/-- C2 (amended): no exception ever escapes `respond` -- every failing
path ends in a returned envelope -- but the failure shape is
branch-dependent: (i) a tabular-SQL agent-invocation failure returns
`success = false` with `error = str(e)` (non-empty whenever the
exception text is); (ii) a stored-SQL store failure instead returns a
text-only envelope embedding the error text, with no `success` or
`error` keys; (iii) an exception reaching the top of `respond` (the
`NameError` raised for a non-Chat functionality) is converted by the
outer handler into `success = false` with the exception text as the
error. -/
theorem C2_amended_failure_envelopes :
    (∀ (cfg : Config) (st : GlobalState) (cb : List (String × String))
       (m e : String),
       cfg.uploaded_db_exists = true → cfg.langchain_llm = true →
       llm_available cfg.now st.cooldown = true →
       cfg.agent_build = PyResult.ok () → cfg.agent_invoke = PyResult.exn e →
       e ≠ "" →
       (respond cfg st cb m "Q&A with Uploaded CSV/XLSX SQL-DB" "Chat").1.2.2.success
           = some false ∧
       (respond cfg st cb m "Q&A with Uploaded CSV/XLSX SQL-DB" "Chat").1.2.2.error
           = some e) ∧
    (∀ (cfg : Config) (st : GlobalState) (cb : List (String × String))
       (m e : String),
       cfg.sqldb_exists = true → cfg.sqldb.fail = some e →
       (respond cfg st cb m "Q&A with stored SQL-DB" "Chat").1.2.2.success = none ∧
       (respond cfg st cb m "Q&A with stored SQL-DB" "Chat").1.2.2.error = none ∧
       (respond cfg st cb m "Q&A with stored SQL-DB" "Chat").1.2.2.text
           = some ("Error retrieving data: " ++ e)) ∧
    (∀ (cfg : Config) (st : GlobalState) (cb : List (String × String))
       (m ct aft : String),
       ct ≠ "Q&A with stored SQL-DB" → ct ≠ "RAG with stored CSV/XLSX ChromaDB" →
       aft ≠ "Chat" →
       (respond cfg st cb m ct aft).1.2.2.success = some false ∧
       (respond cfg st cb m ct aft).1.2.2.error = some (name_error "response")) := by
  refine ⟨?_, ?_, ?_⟩
  · intro cfg st cb m e hup hllm hav hb hi _hne
    unfold respond case2_tabular
    rw [if_neg (by decide), if_neg (by decide), if_pos rfl, if_neg (by decide),
      if_pos (Or.inl rfl)]
    simp [hup, hllm, hav, hb, hi]
  · intro cfg st cb m e hex hf
    have henv := branch_stored_sql_envelope cfg cb m "Q&A with stored SQL-DB"
    have hget : (get_sql_response cfg m "Q&A with stored SQL-DB").1 =
        "Error retrieving data: " ++ e := by
      unfold get_sql_response
      rw [if_pos rfl, if_pos hex, hf]
      show "Error retrieving data: " ++ e ++ "" = "Error retrieving data: " ++ e
      simp
    unfold respond
    rw [if_pos rfl]
    refine ⟨?_, ?_, ?_⟩ <;> simp [henv, hget]
  · intro cfg st cb m ct aft h1 h4 ha
    unfold respond
    rw [if_neg h1, if_neg h4, if_neg ha]
    exact ⟨rfl, rfl⟩

/-- Witness for the three amended C2 conjuncts at concrete inputs. -/
theorem C2_amended_failure_envelopes_witness :
    ((respond cfgQuota {} [] "show" "Q&A with Uploaded CSV/XLSX SQL-DB" "Chat").1.2.2.success
        = some false ∧
     (respond cfgQuota {} [] "show" "Q&A with Uploaded CSV/XLSX SQL-DB" "Chat").1.2.2.error
        = some "429 Resource has been exhausted (e.g. check quota).") ∧
    ((respond cfgBroken {} [] "hi" "Q&A with stored SQL-DB" "Chat").1.2.2.success = none ∧
     (respond cfgBroken {} [] "hi" "Q&A with stored SQL-DB" "Chat").1.2.2.error = none ∧
     (respond cfgBroken {} [] "hi" "Q&A with stored SQL-DB" "Chat").1.2.2.text
        = some ("Error retrieving data: " ++ "disk I/O error")) ∧
    ((respond cfgOcean {} [] "hi" "Unknown" "Upload").1.2.2.success = some false ∧
     (respond cfgOcean {} [] "hi" "Unknown" "Upload").1.2.2.error
        = some (name_error "response")) := by
  refine ⟨?_, ?_, ?_⟩
  · exact C2_amended_failure_envelopes.1 cfgQuota {} [] "show"
      "429 Resource has been exhausted (e.g. check quota)."
      rfl rfl rfl rfl rfl (by decide)
  · exact C2_amended_failure_envelopes.2.1 cfgBroken {} [] "hi" "disk I/O error" rfl rfl
  · exact C2_amended_failure_envelopes.2.2 cfgOcean {} [] "hi" "Unknown" "Upload"
      (by decide) (by decide) (by decide)

/-! ### C4: the min/max heuristic is unreachable for stored-SQL requests -/

/-- C4 (code bug): for a stored-SQL request asking for the temperature
range against a table spanning 2.1-28.7 with the provider unavailable
(cooldown active until 200 at `now = 100`, no LLM configured), `respond`
does NOT return the templated min/max sentence: the early branch at
line 185 answers with `_get_sql_response`'s raw first-5-rows dump and
returns, so the heuristic at lines 288-320 -- which on this very input
WOULD produce the template, as the last conjunct shows by running the
translated dead block -- is unreachable. -/
theorem C4_minmax_heuristic_unreachable :
    llm_available cfgOcean.now (some 200) = false ∧
    strStarts
      ((respond cfgOcean { cooldown := some 200 } [] "what is the temperature range"
          "Q&A with stored SQL-DB" "Chat").1.2.2.response.getD "")
      "Query results:" = true ∧
    (respond cfgOcean { cooldown := some 200 } [] "what is the temperature range"
        "Q&A with stored SQL-DB" "Chat").1.2.2.response ≠
      some (temp_template "2.1" "28.7") ∧
    (case1_stored_sql cfgOcean { cooldown := some 200 } []
        "what is the temperature range").1 =
      some ("", [("what is the temperature range", temp_template "2.1" "28.7")],
        { text := some (temp_template "2.1" "28.7"),
          response := some (temp_template "2.1" "28.7"),
          success := some true }) := by
  refine ⟨rfl, ?_, ?_, ?_⟩ <;> decide

/-! ### C7: quota errors and cooldown activation -/

/-- A request environment for the RAG chat type whose remote embedding
call would raise a quota error if it were ever made. -/
def cfgRag : Config :=
  { now := 100, embed_query_res := .exn "429 quota exceeded" }

/-- C7 (code bug): a quota-signature failure does NOT reliably activate
the cooldown.  (i) When `agent_executor.invoke` raises a 429/quota error
in the tabular-SQL branch, the inner handler (lines 444-460) returns the
error envelope without calling `_activate_llm_cooldown`, so the stored
cooldown stays `None` -- the claimed 30-minute activation only happens
for failures of agent construction (lines 461-465).  (ii) The 60-minute
RAG activation (line 634) is unreachable: the stub branch at line 205
intercepts the RAG chat type, answers with `success = True`, and never
performs an embedding call that could raise a quota error. -/
theorem C7_quota_cooldown_not_activated :
    quota_signature "429 Resource has been exhausted (e.g. check quota)." = true ∧
    (respond cfgQuota {} [] "show me data" "Q&A with Uploaded CSV/XLSX SQL-DB"
        "Chat").2.1.cooldown = none ∧
    (respond cfgQuota {} [] "show me data" "Q&A with Uploaded CSV/XLSX SQL-DB"
        "Chat").1.2.2.success = some false ∧
    (respond cfgQuota {} [] "show me data" "Q&A with Uploaded CSV/XLSX SQL-DB"
        "Chat").1.2.2.error =
      some "429 Resource has been exhausted (e.g. check quota)." ∧
    (respond cfgRag {} [] "find floats" "RAG with stored CSV/XLSX ChromaDB"
        "Chat").2.1.cooldown = none ∧
    (respond cfgRag {} [] "find floats" "RAG with stored CSV/XLSX ChromaDB"
        "Chat").2.2.embed_calls = 0 ∧
    (respond cfgRag {} [] "find floats" "RAG with stored CSV/XLSX ChromaDB"
        "Chat").1.2.2.success = some true := by
  refine ⟨?_, ?_, ?_, ?_, ?_, ?_, ?_⟩ <;> decide

/-! ### C8: the demote-to-local path -/

theorem rag_local_switch_ok (cfg : Config) (emb : EmbState)
    (cb : List (String × String)) (m : String)
    (hs : cfg.local_setup_res = PyResult.ok ())
    (hd : cfg.delete_collection_res = PyResult.ok ())
    (hr : cfg.rebuild_res = PyResult.ok ()) :
    (rag_local_switch cfg emb cb m).2.1 =
      { model_present := true, backend := .localEmb,
        embedding_dimension := some 384 } ∧
    (rag_local_switch cfg emb cb m).2.2.collection_rebuilds = 1 ∧
    (rag_local_switch cfg emb cb m).2.2.collection_deletes = 1 := by
  unfold rag_local_switch
  rw [hs, hd, hr]
  dsimp only
  refine ⟨?_, ?_, ?_⟩ <;> (repeat' split) <;> rfl

/-- C8 counterexample: running the demote-to-local path twice in a row
(everything succeeding) deletes and rebuilds the vector collection TWICE
-- not "at most once" as the claim states: the path has no
already-local guard and unconditionally deletes and rebuilds on every
run. -/
theorem C8_counterexample :
    ¬ (((rag_local_switch cfgLocalOk {} [] "find").2.2.merge
          (rag_local_switch cfgLocalOk
            (rag_local_switch cfgLocalOk {} [] "find").2.1 []
            "find").2.2).collection_rebuilds ≤ 1) ∧
    ((rag_local_switch cfgLocalOk {} [] "find").2.2.merge
        (rag_local_switch cfgLocalOk
          (rag_local_switch cfgLocalOk {} [] "find").2.1 []
          "find").2.2).collection_deletes = 2 := by
  refine ⟨?_, ?_⟩ <;> decide

/-- C8 (amended): running the demote-to-local path twice in a row is
idempotent on the embedding-backend state -- both runs leave
`active_backend = Local` with dimension 384, the same state one run
produces -- but NOT on the collection: each run deletes and rebuilds it,
so the two runs perform exactly two rebuilds, not at most one. -/
theorem C8_demote_idempotent_state_double_rebuild (cfg : Config)
    (emb : EmbState) (cb1 cb2 : List (String × String)) (m1 m2 : String)
    (hs : cfg.local_setup_res = PyResult.ok ())
    (hd : cfg.delete_collection_res = PyResult.ok ())
    (hr : cfg.rebuild_res = PyResult.ok ()) :
    (rag_local_switch cfg (rag_local_switch cfg emb cb1 m1).2.1 cb2 m2).2.1 =
      (rag_local_switch cfg emb cb1 m1).2.1 ∧
    (rag_local_switch cfg emb cb1 m1).2.1 =
      { model_present := true, backend := .localEmb,
        embedding_dimension := some 384 } ∧
    ((rag_local_switch cfg emb cb1 m1).2.2.merge
        (rag_local_switch cfg (rag_local_switch cfg emb cb1 m1).2.1 cb2
          m2).2.2).collection_rebuilds = 2 := by
  obtain ⟨h1s, h1r, -⟩ := rag_local_switch_ok cfg emb cb1 m1 hs hd hr
  obtain ⟨h2s, h2r, -⟩ :=
    rag_local_switch_ok cfg (rag_local_switch cfg emb cb1 m1).2.1 cb2 m2 hs hd hr
  exact ⟨h2s.trans h1s.symm, h1s, by rw [Trace.merge_rebuilds, h1r, h2r]⟩

/-- Witness for the amended C8 at a concrete succeeding environment. -/
theorem C8_demote_idempotent_witness :
    cfgLocalOk.local_setup_res = PyResult.ok () ∧
    (rag_local_switch cfgLocalOk
        (rag_local_switch cfgLocalOk {} [] "find").2.1 [] "again").2.1 =
      (rag_local_switch cfgLocalOk {} [] "find").2.1 ∧
    ((rag_local_switch cfgLocalOk {} [] "find").2.2.merge
        (rag_local_switch cfgLocalOk
          (rag_local_switch cfgLocalOk {} [] "find").2.1 []
          "again").2.2).collection_rebuilds = 2 := by
  have h := C8_demote_idempotent_state_double_rebuild cfgLocalOk {} [] []
    "find" "again" rfl rfl rfl
  exact ⟨rfl, h.1, h.2.2⟩

end FloatChat
